import Mathlib

/-!
Verification of the tip-tune artist-event core: the RSVP attendance ledger
of EventsService (src/backend/src/artiste-event, events service) and the
reminder sweep of EventsScheduler.

Times are modelled as absolute instants in milliseconds (Int, as in
JavaScript Date.getTime). Database-generated uuid primary keys are
modelled as Nat drawn from per-table counters held in the DB state.
HTTP exceptions are modelled by the ServiceError type: NotFoundException
is notFound (spec taxonomy NOT_FOUND), BadRequestException is badRequest
(INVALID_STATE), ConflictException is conflict (ALREADY_EXISTS),
ForbiddenException is forbidden (FORBIDDEN), and a transient storage or
transaction failure is transientStore (TRANSIENT_STORE_FAILURE).
Every operation takes the database state and returns the new state
together with its result, so the atomic transaction of rsvp and unRsvp
is the all-or-nothing state change: a txOk flag injects a storage
failure inside the transaction, in which case the state is unchanged.
-/

namespace TipTune

/-- Enumeration of event categories from the ArtistEvent entity. -/
inductive EventType where
  | live_stream
  | concert
  | meet_greet
  | album_release
deriving DecidableEq, Repr

/-- Row of the artist_events table (ArtistEvent entity). -/
structure ArtistEvent where
  id : Nat
  artistId : String
  title : String
  description : String
  eventType : EventType
  startTime : Int
  endTime : Option Int
  venue : Option String
  streamUrl : Option String
  ticketUrl : Option String
  isVirtual : Bool
  rsvpCount : Int
deriving DecidableEq, Repr

/-- Row of the event_rsvps table (EventRSVP entity). -/
structure EventRSVP where
  id : Nat
  eventId : Nat
  userId : String
  reminderEnabled : Bool
  reminderSent : Bool
deriving DecidableEq, Repr

/-- Database state: both tables plus the id generators for their
generated primary keys. -/
structure DB where
  events : List ArtistEvent
  rsvps : List EventRSVP
  nextEventId : Nat
  nextRsvpId : Nat
deriving DecidableEq, Repr

/-- Errors surfaced to the caller, mirroring the Nest exception classes
thrown by EventsService. -/
inductive ServiceError where
  | notFound (msg : String)
  | badRequest (msg : String)
  | conflict (msg : String)
  | forbidden (msg : String)
  | transientStore
deriving DecidableEq, Repr

/-- Body of a create-event request (CreateEventDto). -/
structure CreateEventDto where
  title : String
  description : String
  eventType : EventType
  startTime : Int
  endTime : Option Int
  venue : Option String
  streamUrl : Option String
  ticketUrl : Option String
  isVirtual : Option Bool
deriving DecidableEq, Repr

/-- Body of an update-event request (UpdateEventDto); every field
optional, absent fields leave the stored value in place. -/
structure UpdateEventDto where
  title : Option String
  description : Option String
  eventType : Option EventType
  startTime : Option Int
  endTime : Option Int
  venue : Option String
  streamUrl : Option String
  ticketUrl : Option String
  isVirtual : Option Bool
deriving DecidableEq, Repr

/-- Body of an RSVP request (RsvpDto). -/
structure RsvpDto where
  reminderEnabled : Option Bool
deriving DecidableEq, Repr

/-- Pagination query (PaginationDto); defaults page = 1, limit = 20 are
applied at the use site by destructuring, as in the service. -/
structure PaginationDto where
  page : Option Nat
  limit : Option Nat
deriving DecidableEq, Repr

/-- Paginated listing envelope; totalPages is the ceiling of
total / limit as computed by the PaginatedResult constructor. -/
structure PaginatedResult (α : Type) where
  data : List α
  total : Nat
  page : Nat
  limit : Nat
  totalPages : Nat
deriving DecidableEq, Repr

/-- PaginatedResult constructor: Math.ceil of total / limit on
naturals. -/
def PaginatedResult.make {α : Type} (data : List α) (total page limit : Nat) :
    PaginatedResult α :=
  ⟨data, total, page, limit, (total + limit - 1) / limit⟩

/-- Point lookup of an event by id (eventRepo.findOne on id). -/
def findEvent (db : DB) (eventId : Nat) : Option ArtistEvent :=
  db.events.find? (fun e => e.id == eventId)

/-- Point lookup of an RSVP row by its unique (eventId, userId) key
(rsvpRepo.findOne on eventId and userId). -/
def findRsvp (db : DB) (eventId : Nat) (userId : String) : Option EventRSVP :=
  db.rsvps.find? (fun r => r.eventId == eventId && r.userId == userId)

/-- EventsService.getEvent: the event, or NotFoundException. -/
def getEvent (db : DB) (eventId : Nat) : Except ServiceError ArtistEvent :=
  match findEvent db eventId with
  | some e => .ok e
  | none => .error (.notFound "Event not found")

/-- Merge of an optional incoming field with a stored optional field:
a provided value overwrites, an absent one keeps the stored value. -/
def applyOpt {α : Type} (incoming stored : Option α) : Option α :=
  match incoming with
  | some v => some v
  | none => stored

/-- EventsService.createEvent: rejects a start instant at or before now,
rejects an end instant at or before the start, otherwise inserts the
event with a fresh id and a zero rsvpCount. -/
def createEvent (db : DB) (now : Int) (artistId : String) (dto : CreateEventDto) :
    DB × Except ServiceError ArtistEvent :=
  if dto.startTime ≤ now then
    (db, .error (.badRequest "Event start time must be in the future"))
  else if dto.endTime.any (fun endT => endT ≤ dto.startTime) then
    (db, .error (.badRequest "End time must be after start time"))
  else
    let event : ArtistEvent :=
      { id := db.nextEventId
        artistId := artistId
        title := dto.title
        description := dto.description
        eventType := dto.eventType
        startTime := dto.startTime
        endTime := dto.endTime
        venue := dto.venue
        streamUrl := dto.streamUrl
        ticketUrl := dto.ticketUrl
        isVirtual := dto.isVirtual.getD false
        rsvpCount := 0 }
    ({ db with events := db.events ++ [event], nextEventId := db.nextEventId + 1 },
      .ok event)

/-- EventsService.updateEvent: owner-only field edit that re-validates
the end-after-start ordering against the effective (possibly new)
values; it never compares the start instant with the current time. -/
def updateEvent (db : DB) (eventId : Nat) (artistId : String) (dto : UpdateEventDto) :
    DB × Except ServiceError ArtistEvent :=
  match findEvent db eventId with
  | none => (db, .error (.notFound "Event not found"))
  | some event =>
    if event.artistId ≠ artistId then
      (db, .error (.forbidden "You can only update your own events"))
    else
      let startTime := dto.startTime.getD event.startTime
      let endTime := applyOpt dto.endTime event.endTime
      if endTime.any (fun endT => endT ≤ startTime) then
        (db, .error (.badRequest "End time must be after start time"))
      else
        let updated : ArtistEvent :=
          { event with
            title := dto.title.getD event.title
            description := dto.description.getD event.description
            eventType := dto.eventType.getD event.eventType
            startTime := startTime
            endTime := endTime
            venue := applyOpt dto.venue event.venue
            streamUrl := applyOpt dto.streamUrl event.streamUrl
            ticketUrl := applyOpt dto.ticketUrl event.ticketUrl
            isVirtual := dto.isVirtual.getD event.isVirtual }
        ({ db with events := db.events.map (fun e => if e.id == eventId then updated else e) },
          .ok updated)

/-- EventsService.getFeed. The second component records whether the
event store was queried: the empty followed-set short circuit returns
before any storage access. -/
def getFeed (db : DB) (now : Int) (followedArtistIds : List String)
    (pagination : PaginationDto) : PaginatedResult ArtistEvent × Bool :=
  let page := pagination.page.getD 1
  let limit := pagination.limit.getD 20
  if followedArtistIds.isEmpty then
    (PaginatedResult.make [] 0 page limit, false)
  else
    let matching := db.events.filter
      (fun e => followedArtistIds.contains e.artistId && decide (now < e.startTime))
    let sorted := matching.mergeSort (fun a b => a.startTime ≤ b.startTime)
    (PaginatedResult.make ((sorted.drop ((page - 1) * limit)).take limit)
      matching.length page limit, true)

/-- EventsService.rsvp. Checks run in source order: event existence,
start instant strictly in the future, no existing row for the pair;
then a transaction inserts the row (reminderEnabled defaulting to true,
reminderSent false) and increments rsvp_count by one. The txOk flag
injects a storage failure inside the transaction: the whole unit rolls
back and the state is unchanged. -/
def rsvp (db : DB) (now : Int) (eventId : Nat) (userId : String) (dto : RsvpDto)
    (txOk : Bool) : DB × Except ServiceError EventRSVP :=
  match findEvent db eventId with
  | none => (db, .error (.notFound "Event not found"))
  | some event =>
    if event.startTime ≤ now then
      (db, .error (.badRequest "Cannot RSVP to a past event"))
    else
      match findRsvp db eventId userId with
      | some _ => (db, .error (.conflict "Already RSVPed to this event"))
      | none =>
        if txOk then
          let row : EventRSVP :=
            { id := db.nextRsvpId
              eventId := eventId
              userId := userId
              reminderEnabled := dto.reminderEnabled.getD true
              reminderSent := false }
          ({ db with
              rsvps := db.rsvps ++ [row]
              nextRsvpId := db.nextRsvpId + 1
              events := db.events.map (fun e =>
                if e.id == eventId then { e with rsvpCount := e.rsvpCount + 1 } else e) },
            .ok row)
        else (db, .error .transientStore)

/-- EventsService.unRsvp. NotFound when no row exists for the pair;
otherwise a transaction removes the row (by its primary key) and sets
rsvp_count to GREATEST(rsvp_count - 1, 0). The txOk flag injects a
storage failure inside the transaction, rolling the unit back. -/
def unRsvp (db : DB) (eventId : Nat) (userId : String) (txOk : Bool) :
    DB × Except ServiceError Unit :=
  match findRsvp db eventId userId with
  | none => (db, .error (.notFound "RSVP not found"))
  | some row =>
    if txOk then
      ({ db with
          rsvps := db.rsvps.filter (fun r => !(r.id == row.id))
          events := db.events.map (fun e =>
            if e.id == eventId then { e with rsvpCount := max (e.rsvpCount - 1) 0 } else e) },
        .ok ())
    else (db, .error .transientStore)

/-- Upper bound of the reminder lookahead window: 60 minutes in
milliseconds, from getEventsStartingSoon. -/
def upperBoundMs : Int := 60 * 60 * 1000

/-- Lower bound of the reminder lookahead window: 55 minutes in
milliseconds, from getEventsStartingSoon. -/
def lowerBoundMs : Int := 55 * 60 * 1000

/-- Selection predicate of getEventsStartingSoon: start_time strictly
greater than now plus 55 minutes and at most now plus 60 minutes. -/
def inReminderWindow (now startTime : Int) : Bool :=
  decide (now + lowerBoundMs < startTime) && decide (startTime ≤ now + upperBoundMs)

/-- EventsService.getEventsStartingSoon: the events whose start instant
lies in the lookahead window at the invocation instant. -/
def getEventsStartingSoon (db : DB) (now : Int) : List ArtistEvent :=
  db.events.filter (fun e => inReminderWindow now e.startTime)

/-- Eligibility filter of getRsvpsForReminder: rows of the event with
reminders enabled and not yet sent. -/
def eligibleFor (eventId : Nat) (r : EventRSVP) : Bool :=
  r.eventId == eventId && r.reminderEnabled && !r.reminderSent

/-- EventsService.getRsvpsForReminder. -/
def getRsvpsForReminder (db : DB) (eventId : Nat) : List EventRSVP :=
  db.rsvps.filter (eligibleFor eventId)

/-- EventsService.markReminderSent: one batched update setting
reminderSent on exactly the rows whose ids are listed; a no-op on the
empty list. -/
def markReminderSent (db : DB) (rsvpIds : List Nat) : DB :=
  if rsvpIds.isEmpty then db
  else
    { db with
      rsvps := db.rsvps.map (fun r =>
        if rsvpIds.contains r.id then { r with reminderSent := true } else r) }

/-- Failure injection for one sweep invocation of EventsScheduler:
whether, for a given event id, the RSVP fetch, the dispatch call, or
the mark-as-sent update throws. -/
structure SweepOracle where
  fetchFails : Nat → Bool
  dispatchFails : Nat → Bool
  markFails : Nat → Bool

/-- Record of one invocation of the reminder-dispatch capability
(notificationsService.sendEventReminders): the event and the user ids
it was called with. -/
structure Dispatch where
  eventId : Nat
  userIds : List String
deriving DecidableEq, Repr

/-- Body of the per-event loop of EventsScheduler.sendEventReminders,
with the try/catch folded in: fetch the eligible rows, skip when none,
dispatch once with all their user ids, then mark exactly those rows
sent. A failure at any step is caught and leaves the state as it was
at the failure point; the dispatch list records every invocation of
the dispatch capability, failed ones included. -/
def processEvent (orc : SweepOracle) (ev : ArtistEvent) (db : DB) : DB × List Dispatch :=
  if orc.fetchFails ev.id then (db, [])
  else
    let rsvps := getRsvpsForReminder db ev.id
    if rsvps.isEmpty then (db, [])
    else
      let userIds := rsvps.map (fun r => r.userId)
      let rsvpIds := rsvps.map (fun r => r.id)
      if orc.dispatchFails ev.id then (db, [⟨ev.id, userIds⟩])
      else if orc.markFails ev.id then (db, [⟨ev.id, userIds⟩])
      else (markReminderSent db rsvpIds, [⟨ev.id, userIds⟩])

/-- Sequential per-event loop of the sweep, accumulating dispatch
invocations; a caught failure for one event never stops the loop. -/
def sweepGo (orc : SweepOracle) : List ArtistEvent → DB → DB × List Dispatch
  | [], db => (db, [])
  | ev :: rest, db =>
    let step := processEvent orc ev db
    let next := sweepGo orc rest step.1
    (next.1, step.2 ++ next.2)

/-- EventsScheduler.sendEventReminders: one sweep invocation at the
given instant, over the candidate events of the lookahead window. -/
def sendEventReminders (orc : SweepOracle) (db : DB) (now : Int) : DB × List Dispatch :=
  sweepGo orc (getEventsStartingSoon db now) db

/-- One Attendance Ledger call: a Create RSVP (EventsService.rsvp) or a
Remove RSVP (EventsService.unRsvp), with its call instant, arguments and
injected transaction outcome. -/
inductive LedgerOp where
  | createRsvp (now : Int) (eventId : Nat) (userId : String) (dto : RsvpDto) (txOk : Bool)
  | removeRsvp (eventId : Nat) (userId : String) (txOk : Bool)

/-- State reached after one ledger call (the result value is dropped). -/
def applyLedgerOp (db : DB) : LedgerOp → DB
  | .createRsvp now eventId userId dto txOk => (rsvp db now eventId userId dto txOk).1
  | .removeRsvp eventId userId txOk => (unRsvp db eventId userId txOk).1

/-- State reached after a sequence of ledger calls settles. -/
def applyLedgerOps (db : DB) (ops : List LedgerOp) : DB :=
  ops.foldl applyLedgerOp db

/-- Number of RSVP rows currently referencing the given event. -/
def countRows (l : List EventRSVP) (eventId : Nat) : Nat :=
  (l.filter (fun r => r.eventId == eventId)).length

/-- Counter invariant for one event: every stored event row carrying
this id has rsvpCount equal to the number of RSVP rows referencing it. -/
def counterMatchesFor (db : DB) (eventId : Nat) : Prop :=
  ∀ e ∈ db.events, e.id = eventId → e.rsvpCount = (countRows db.rsvps eventId : Int)

/-- Primary-key uniqueness of RSVP rows, guaranteed by the schema. -/
def rsvpIdsNodup (db : DB) : Prop :=
  (db.rsvps.map (fun r => r.id)).Nodup

/-- Primary-key uniqueness of event rows, guaranteed by the schema. -/
def eventIdsNodup (db : DB) : Prop :=
  (db.events.map (fun e => e.id)).Nodup

/-- Freshness of the RSVP id generator: every stored id is below it. -/
def rsvpIdsFresh (db : DB) : Prop :=
  ∀ r ∈ db.rsvps, r.id < db.nextRsvpId

instance (db : DB) (eventId : Nat) : Decidable (counterMatchesFor db eventId) := by
  unfold counterMatchesFor
  infer_instance

instance (db : DB) : Decidable (rsvpIdsNodup db) := by
  unfold rsvpIdsNodup
  infer_instance

instance (db : DB) : Decidable (eventIdsNodup db) := by
  unfold eventIdsNodup
  infer_instance

instance (db : DB) : Decidable (rsvpIdsFresh db) := by
  unfold rsvpIdsFresh
  infer_instance

/-- Marking of one RSVP row by the mark-as-sent batch. -/
def flip (r : EventRSVP) : EventRSVP :=
  { r with reminderSent := true }

/-- Conditional marking, used to describe the effect of a sweep on each
row in place. -/
def flipIf (b : Bool) (r : EventRSVP) : EventRSVP :=
  if b then flip r else r

/-- Whether one candidate event's processing inside a sweep reaches the
mark-as-sent batch: its fetch succeeded, it had eligible rows, and both
the dispatch call and the batched update succeeded. -/
def eventProcessOutcome (orc : SweepOracle) (db : DB) (ev : ArtistEvent) : Bool :=
  !orc.fetchFails ev.id && !(getRsvpsForReminder db ev.id).isEmpty &&
    !orc.dispatchFails ev.id && !orc.markFails ev.id

/-- Whether the dispatch capability is invoked for a candidate event:
its fetch succeeded and it had eligible rows (the invocation itself may
still fail). -/
def dispatchPlanned (orc : SweepOracle) (db : DB) (ev : ArtistEvent) : Bool :=
  !orc.fetchFails ev.id && !(getRsvpsForReminder db ev.id).isEmpty

/-! Concrete fixtures used by the witness theorems. -/

/-- Sample future event (start two hours after instant zero) owned by
artist a1, with a zero counter. -/
def evA : ArtistEvent :=
  { id := 1
    artistId := "a1"
    title := "Show"
    description := "d"
    eventType := .concert
    startTime := 7200000
    endTime := none
    venue := none
    streamUrl := none
    ticketUrl := none
    isVirtual := false
    rsvpCount := 0 }

/-- Sample database holding only evA and no RSVP rows. -/
def dbA : DB :=
  { events := [evA], rsvps := [], nextEventId := 2, nextRsvpId := 1 }

/-- Sample RSVP row of user u1 on evA. -/
def rowA : EventRSVP :=
  { id := 1, eventId := 1, userId := "u1", reminderEnabled := true, reminderSent := false }

/-- Sample database where u1 already holds an RSVP on evA, with the
counter in step. -/
def dbB : DB :=
  { events := [{ evA with rsvpCount := 1 }], rsvps := [rowA], nextEventId := 2, nextRsvpId := 2 }

/-- Second eligible RSVP row (user u2) on event 1. -/
def rowB : EventRSVP :=
  { id := 2, eventId := 1, userId := "u2", reminderEnabled := true, reminderSent := false }

/-- Ineligible RSVP row (user u3, reminders disabled) on event 1. -/
def rowC : EventRSVP :=
  { id := 3, eventId := 1, userId := "u3", reminderEnabled := false, reminderSent := false }

/-- Event 1 shifted to start 58 minutes after instant zero. -/
def evS : ArtistEvent :=
  { evA with startTime := 3480000, rsvpCount := 3 }

/-- A second event (id 2) starting 58 minutes and 20 seconds after
instant zero. -/
def evT : ArtistEvent :=
  { evA with id := 2, startTime := 3500000, rsvpCount := 0 }

/-- Sweep scenario: one candidate event with two eligible rows and one
ineligible row. -/
def dbS : DB :=
  { events := [evS], rsvps := [rowA, rowB, rowC], nextEventId := 2, nextRsvpId := 4 }

/-- Sweep scenario with two candidate events, the failing one first. -/
def dbT : DB :=
  { events := [evT, evS], rsvps := [rowA, rowB, rowC], nextEventId := 3, nextRsvpId := 4 }

/-- Oracle injecting no failure anywhere. -/
def orcNone : SweepOracle :=
  { fetchFails := fun _ => false, dispatchFails := fun _ => false, markFails := fun _ => false }

/-- Oracle whose RSVP fetch throws for event 2 only. -/
def orcFetchFail2 : SweepOracle :=
  { fetchFails := fun i => i == 2, dispatchFails := fun _ => false, markFails := fun _ => false }

/-! Claim theorems. -/

/-- C5: getEventsStartingSoon selects exactly the stored events whose
start instant t satisfies now + 55 minutes < t and t at most
now + 60 minutes; in particular an event starting 58 minutes from now is
selected, and events starting 50 or 70 minutes from now are not. -/
theorem C5_window_selection :
    (∀ (db : DB) (now : Int) (e : ArtistEvent),
      e ∈ getEventsStartingSoon db now ↔
        e ∈ db.events ∧ now + 55 * 60 * 1000 < e.startTime ∧
          e.startTime ≤ now + 60 * 60 * 1000) ∧
    (∀ (db : DB) (now : Int) (e : ArtistEvent), e ∈ db.events →
      e.startTime = now + 58 * 60 * 1000 → e ∈ getEventsStartingSoon db now) ∧
    (∀ (db : DB) (now : Int) (e : ArtistEvent),
      e.startTime = now + 50 * 60 * 1000 → e ∉ getEventsStartingSoon db now) ∧
    (∀ (db : DB) (now : Int) (e : ArtistEvent),
      e.startTime = now + 70 * 60 * 1000 → e ∉ getEventsStartingSoon db now) := by
  have hmem : ∀ (db : DB) (now : Int) (e : ArtistEvent),
      e ∈ getEventsStartingSoon db now ↔
        e ∈ db.events ∧ now + 55 * 60 * 1000 < e.startTime ∧
          e.startTime ≤ now + 60 * 60 * 1000 := by
    intro db now e
    simp [getEventsStartingSoon, inReminderWindow, lowerBoundMs, upperBoundMs,
      List.mem_filter, and_assoc]
  refine ⟨hmem, ?_, ?_, ?_⟩
  · intro db now e he hst
    exact (hmem db now e).2 ⟨he, by omega, by omega⟩
  · intro db now e hst hmemsel
    have h := (hmem db now e).1 hmemsel
    omega
  · intro db now e hst hmemsel
    have h := (hmem db now e).1 hmemsel
    omega

/-- Witness for C5 at concrete inputs: the event of dbA, shifted to
start 58 minutes after instant zero, is selected by a sweep at instant
zero; shifted to 50 or 70 minutes it is not. -/
theorem C5_window_selection_witness :
    { evA with startTime := 3480000 } ∈
        getEventsStartingSoon { dbA with events := [{ evA with startTime := 3480000 }] } 0 ∧
    { evA with startTime := 3000000 } ∉
        getEventsStartingSoon { dbA with events := [{ evA with startTime := 3000000 }] } 0 ∧
    { evA with startTime := 4200000 } ∉
        getEventsStartingSoon { dbA with events := [{ evA with startTime := 4200000 }] } 0 :=
  ⟨C5_window_selection.2.1 _ 0 _ (by decide) (by decide),
   C5_window_selection.2.2.1 _ 0 _ (by decide),
   C5_window_selection.2.2.2 _ 0 _ (by decide)⟩

/-- C8: the selection windows of two sweeps five minutes apart are
disjoint and cover, between them, exactly the contiguous interval from
now + 55 minutes (exclusive) to now + 65 minutes (inclusive). -/
theorem C8_consecutive_windows :
    ∀ now t : Int,
      ¬(inReminderWindow now t = true ∧
          inReminderWindow (now + 5 * 60 * 1000) t = true) ∧
      ((inReminderWindow now t = true ∨
          inReminderWindow (now + 5 * 60 * 1000) t = true) ↔
        (now + 55 * 60 * 1000 < t ∧ t ≤ now + 65 * 60 * 1000)) := by
  intro now t
  simp only [inReminderWindow, lowerBoundMs, upperBoundMs, Bool.and_eq_true,
    decide_eq_true_eq]
  omega

/-- Witness for C8 at a concrete instant: a start 58 minutes after the
first sweep cannot also be selected by the sweep five minutes later. -/
theorem C8_consecutive_windows_witness :
    ¬(inReminderWindow 0 3480000 = true ∧
        inReminderWindow (0 + 5 * 60 * 1000) 3480000 = true) :=
  (C8_consecutive_windows 0 3480000).1

/-- C9: the feed query with an empty followed-artist set returns, for
every pagination argument, the empty page with total zero, and never
queries the event store (the storage-access flag stays false). -/
theorem C9_empty_feed_short_circuit :
    ∀ (db : DB) (now : Int) (pagination : PaginationDto),
      getFeed db now [] pagination =
        (⟨[], 0, pagination.page.getD 1, pagination.limit.getD 20, 0⟩, false) := by
  intro db now pagination
  have hz : ∀ limit : Nat, (limit - 1) / limit = 0 := by
    intro limit
    rcases limit with _ | n
    · rfl
    · exact Nat.div_eq_of_lt (by omega)
  simp [getFeed, PaginatedResult.make, hz]

/-- C2: rsvp fails with NOT_FOUND when the event does not exist, with
INVALID_STATE (BadRequestException) when the event exists but starts at
or before the call instant, with ALREADY_EXISTS (ConflictException)
when a row for the pair already exists, succeeds only when all three
preconditions hold, and does succeed (inserting the defaulted row) when
they hold and the store commits. -/
theorem C2_rsvp_preconditions :
    ∀ (db : DB) (now : Int) (eventId : Nat) (userId : String) (dto : RsvpDto) (txOk : Bool),
      (findEvent db eventId = none →
        (rsvp db now eventId userId dto txOk).2 = .error (.notFound "Event not found")) ∧
      (∀ e, findEvent db eventId = some e → e.startTime ≤ now →
        (rsvp db now eventId userId dto txOk).2 =
          .error (.badRequest "Cannot RSVP to a past event")) ∧
      (∀ e, findEvent db eventId = some e → now < e.startTime →
        ∀ x, findRsvp db eventId userId = some x →
        (rsvp db now eventId userId dto txOk).2 =
          .error (.conflict "Already RSVPed to this event")) ∧
      (∀ row, (rsvp db now eventId userId dto txOk).2 = .ok row →
        (∃ e, findEvent db eventId = some e ∧ now < e.startTime) ∧
          findRsvp db eventId userId = none) ∧
      (∀ e, findEvent db eventId = some e → now < e.startTime →
        findRsvp db eventId userId = none → txOk = true →
        (rsvp db now eventId userId dto txOk).2 = .ok
          { id := db.nextRsvpId
            eventId := eventId
            userId := userId
            reminderEnabled := dto.reminderEnabled.getD true
            reminderSent := false }) := by
  intro db now eventId userId dto txOk
  refine ⟨?_, ?_, ?_, ?_, ?_⟩
  · intro h
    simp [rsvp, h]
  · intro e he hpast
    simp [rsvp, he, hpast]
  · intro e he hfut x hx
    simp [rsvp, he, not_le.2 hfut, hx]
  · intro row hok
    cases he : findEvent db eventId with
    | none => simp [rsvp, he] at hok
    | some e =>
      by_cases hpast : e.startTime ≤ now
      · simp [rsvp, he, hpast] at hok
      · cases hr : findRsvp db eventId userId with
        | some x => simp [rsvp, he, hpast, hr] at hok
        | none => exact ⟨⟨e, he ▸ rfl, lt_of_not_le hpast⟩, hr ▸ rfl⟩
  · intro e he hfut hno htx
    subst htx
    simp [rsvp, he, not_le.2 hfut, hno]

/-- Witness for C2: on the concrete databases the four outcomes are
realised: missing event, past event, duplicate row, and success. -/
theorem C2_rsvp_preconditions_witness :
    (rsvp dbA 0 9 "u1" ⟨none⟩ true).2 = .error (.notFound "Event not found") ∧
    (rsvp dbA 7200000 1 "u1" ⟨none⟩ true).2 =
      .error (.badRequest "Cannot RSVP to a past event") ∧
    (rsvp dbB 0 1 "u1" ⟨none⟩ true).2 =
      .error (.conflict "Already RSVPed to this event") ∧
    (rsvp dbA 0 1 "u1" ⟨none⟩ true).2 = .ok
      { id := 1, eventId := 1, userId := "u1", reminderEnabled := true,
        reminderSent := false } :=
  ⟨(C2_rsvp_preconditions dbA 0 9 "u1" ⟨none⟩ true).1 (by decide),
   (C2_rsvp_preconditions dbA 7200000 1 "u1" ⟨none⟩ true).2.1 evA (by decide) (by decide),
   (C2_rsvp_preconditions dbB 0 1 "u1" ⟨none⟩ true).2.2.1 { evA with rsvpCount := 1 }
     (by decide) (by decide) rowA (by decide),
   (C2_rsvp_preconditions dbA 0 1 "u1" ⟨none⟩ true).2.2.2.2 evA (by decide) (by decide)
     (by decide) rfl⟩

/-- C3: when the three preconditions hold, a committing rsvp changes the
state by exactly one appended row for the pair, with reminderEnabled
the supplied flag (true when unspecified) and reminderSent false, and
the event counter bumped by exactly one; when the transaction fails the
state is unchanged and the caller sees the error, so neither effect is
applied. -/
theorem C3_rsvp_atomic_effect :
    ∀ (db : DB) (now : Int) (eventId : Nat) (userId : String) (dto : RsvpDto) (e : ArtistEvent),
      findEvent db eventId = some e → now < e.startTime →
      findRsvp db eventId userId = none →
      (rsvp db now eventId userId dto true =
        ({ db with
            rsvps := db.rsvps ++
              [{ id := db.nextRsvpId
                 eventId := eventId
                 userId := userId
                 reminderEnabled := dto.reminderEnabled.getD true
                 reminderSent := false }]
            nextRsvpId := db.nextRsvpId + 1
            events := db.events.map (fun ev =>
              if ev.id == eventId then { ev with rsvpCount := ev.rsvpCount + 1 } else ev) },
          .ok
            { id := db.nextRsvpId
              eventId := eventId
              userId := userId
              reminderEnabled := dto.reminderEnabled.getD true
              reminderSent := false })) ∧
      rsvp db now eventId userId dto false = (db, .error .transientStore) := by
  intro db now eventId userId dto e he hfut hno
  constructor
  · simp [rsvp, he, not_le.2 hfut, hno]
  · simp [rsvp, he, not_le.2 hfut, hno]

/-- Witness for C3: the concrete successful RSVP of u1 on evA, and the
rolled-back attempt, evaluated on dbA. -/
theorem C3_rsvp_atomic_effect_witness :
    (rsvp dbA 0 1 "u1" ⟨none⟩ true =
      ({ dbA with
          rsvps := dbA.rsvps ++
            [{ id := dbA.nextRsvpId
               eventId := 1
               userId := "u1"
               reminderEnabled := (⟨none⟩ : RsvpDto).reminderEnabled.getD true
               reminderSent := false }]
          nextRsvpId := dbA.nextRsvpId + 1
          events := dbA.events.map (fun ev =>
            if ev.id == 1 then { ev with rsvpCount := ev.rsvpCount + 1 } else ev) },
        .ok
          { id := dbA.nextRsvpId
            eventId := 1
            userId := "u1"
            reminderEnabled := (⟨none⟩ : RsvpDto).reminderEnabled.getD true
            reminderSent := false })) ∧
    rsvp dbA 0 1 "u1" ⟨none⟩ false = (dbA, .error .transientStore) :=
  C3_rsvp_atomic_effect dbA 0 1 "u1" ⟨none⟩ evA (by decide) (by decide) (by decide)

/-- C4: unRsvp fails with NOT_FOUND exactly when no row exists for the
pair; when the row exists and the transaction commits it removes that
row and sets the counter of the event to the maximum of its decrement
and zero, so the counter stays non-negative and a zero counter stays
zero. -/
theorem C4_unrsvp_contract :
    ∀ (db : DB) (eventId : Nat) (userId : String) (txOk : Bool),
      ((unRsvp db eventId userId txOk).2 = .error (.notFound "RSVP not found") ↔
        findRsvp db eventId userId = none) ∧
      (∀ row, findRsvp db eventId userId = some row →
        unRsvp db eventId userId true =
          ({ db with
              rsvps := db.rsvps.filter (fun r => !(r.id == row.id))
              events := db.events.map (fun e =>
                if e.id == eventId then { e with rsvpCount := max (e.rsvpCount - 1) 0 }
                else e) },
            .ok ())) ∧
      (∀ row, findRsvp db eventId userId = some row →
        ∀ e ∈ db.events, e.id = eventId →
          { e with rsvpCount := max (e.rsvpCount - 1) 0 } ∈
              (unRsvp db eventId userId true).1.events ∧
            0 ≤ max (e.rsvpCount - 1) 0 ∧
            (e.rsvpCount = 0 → max (e.rsvpCount - 1) 0 = 0)) := by
  intro db eventId userId txOk
  refine ⟨?_, ?_, ?_⟩
  · constructor
    · intro h
      cases hr : findRsvp db eventId userId with
      | none => rfl
      | some row =>
        cases txOk
        · simp [unRsvp, hr] at h
        · simp [unRsvp, hr] at h
    · intro h
      simp [unRsvp, h]
  · intro row hr
    simp [unRsvp, hr]
  · intro row hr e he heid
    refine ⟨?_, by omega, by intro h0; rw [h0]; rfl⟩
    have : { e with rsvpCount := max (e.rsvpCount - 1) 0 } ∈
        db.events.map (fun e2 =>
          if e2.id == eventId then { e2 with rsvpCount := max (e2.rsvpCount - 1) 0 }
          else e2) := by
      refine List.mem_map.2 ⟨e, he, ?_⟩
      simp [heid]
    simpa [unRsvp, hr] using this

/-- Witness for C4: removing the concrete row of u1 from dbB, where the
lookup succeeds, and the failing lookup on dbA. -/
theorem C4_unrsvp_contract_witness :
    ((unRsvp dbA 1 "u1" true).2 = .error (.notFound "RSVP not found") ↔
      findRsvp dbA 1 "u1" = none) ∧
    unRsvp dbB 1 "u1" true =
      ({ dbB with
          rsvps := dbB.rsvps.filter (fun r => !(r.id == rowA.id))
          events := dbB.events.map (fun e =>
            if e.id == 1 then { e with rsvpCount := max (e.rsvpCount - 1) 0 } else e) },
        .ok ()) :=
  ⟨(C4_unrsvp_contract dbA 1 "u1" true).1,
   (C4_unrsvp_contract dbB 1 "u1" true).2.1 rowA (by decide)⟩

/-- C10: for an existing event owned by the caller, updateEvent raises
the INVALID_STATE error (BadRequestException) exactly when the
effective end instant is at or before the effective start instant
(updated values where supplied, stored values otherwise); it never
compares the start instant with the current time, so setting the start
to an instant at or before any given now succeeds whenever the ordering
holds, whereas createEvent rejects any start at or before now. -/
theorem C10_update_no_start_recheck :
    (∀ (db : DB) (eventId : Nat) (artistId : String) (dto : UpdateEventDto)
        (e : ArtistEvent),
      findEvent db eventId = some e → e.artistId = artistId →
      ((updateEvent db eventId artistId dto).2 =
          .error (.badRequest "End time must be after start time") ↔
        (applyOpt dto.endTime e.endTime).any
          (fun endT => endT ≤ dto.startTime.getD e.startTime) = true)) ∧
    (∀ (db : DB) (eventId : Nat) (artistId : String) (dto : UpdateEventDto)
        (e : ArtistEvent) (now t : Int),
      findEvent db eventId = some e → e.artistId = artistId →
      dto.startTime = some t → t ≤ now →
      (applyOpt dto.endTime e.endTime).any (fun endT => endT ≤ t) = false →
      ∃ updated, (updateEvent db eventId artistId dto).2 = .ok updated ∧
        updated.startTime = t) ∧
    (∀ (db : DB) (now : Int) (artistId : String) (dto : CreateEventDto),
      dto.startTime ≤ now →
      (createEvent db now artistId dto).2 =
        .error (.badRequest "Event start time must be in the future")) := by
  refine ⟨?_, ?_, ?_⟩
  · intro db eventId artistId dto e he howner
    cases hend : (applyOpt dto.endTime e.endTime).any
        (fun endT => endT ≤ dto.startTime.getD e.startTime) with
    | true => simp [updateEvent, he, howner, hend]
    | false => simp [updateEvent, he, howner, hend]
  · intro db eventId artistId dto e now t he howner hst hpast hend
    simp [updateEvent, he, howner, hst, hend]
  · intro db now artistId dto hpast
    simp [createEvent, hpast]

/-- Witness for C10: on dbA the owner moves the start of evA into the
past (instant -100, before now = 0) and the update succeeds, while
createEvent at now = 0 rejects the same start instant. -/
theorem C10_update_no_start_recheck_witness :
    (∃ updated,
      (updateEvent dbA 1 "a1"
          ⟨none, none, none, some (-100), none, none, none, none, none⟩).2 =
        .ok updated ∧ updated.startTime = -100) ∧
    (createEvent dbA 0 "a1"
        ⟨"Show", "d", .concert, -100, none, none, none, none, none⟩).2 =
      .error (.badRequest "Event start time must be in the future") :=
  ⟨C10_update_no_start_recheck.2.1 dbA 1 "a1"
      ⟨none, none, none, some (-100), none, none, none, none, none⟩ evA 0 (-100)
      (by decide) (by decide) (by decide) (by decide) (by decide),
   C10_update_no_start_recheck.2.2 dbA 0 "a1"
      ⟨"Show", "d", .concert, -100, none, none, none, none, none⟩ (by decide)⟩

/-! Helper lemmas about row counts under the ledger's list operations. -/

theorem countRows_append (l : List EventRSVP) (row : EventRSVP) (eid : Nat) :
    countRows (l ++ [row]) eid =
      countRows l eid + (if row.eventId == eid then 1 else 0) := by
  unfold countRows
  rw [List.filter_append]
  cases h : row.eventId == eid <;> simp [List.filter_cons, h]

theorem filter_ne_eq_erase {l : List EventRSVP} {a : EventRSVP} (ha : a ∈ l)
    (hn : (l.map (fun r => r.id)).Nodup) :
    l.filter (fun r => !(r.id == a.id)) = l.erase a := by
  induction l with
  | nil => cases ha
  | cons x xs ih =>
    rw [List.map_cons, List.nodup_cons] at hn
    by_cases hxa : x = a
    · subst hxa
      have hall : ∀ r ∈ xs, (!(r.id == x.id)) = true := by
        intro r hr
        have hne : r.id ≠ x.id := fun hcontr =>
          hn.1 (hcontr ▸ List.mem_map_of_mem (fun r2 => r2.id) hr)
        simp [hne]
      rw [List.erase_cons_head, List.filter_cons]
      simp only [beq_self_eq_true, Bool.not_true]
      exact List.filter_eq_self.2 hall
    · have ha2 : a ∈ xs := by
        rcases List.mem_cons.1 ha with h | h
        · exact absurd h.symm hxa
        · exact h
      have hxid : (x.id == a.id) = false := by
        have hne : x.id ≠ a.id := fun hcontr =>
          hn.1 (hcontr ▸ List.mem_map_of_mem (fun r2 => r2.id) ha2)
        simpa using hne
      rw [List.filter_cons, List.erase_cons_tail (by simp [hxa])]
      simp only [hxid, Bool.not_false, if_true]
      rw [ih ha2 hn.2]

theorem countRows_remove_match {l : List EventRSVP} {a : EventRSVP} (ha : a ∈ l)
    (hn : (l.map (fun r => r.id)).Nodup) {eid : Nat} (hmatch : (a.eventId == eid) = true) :
    countRows (l.filter (fun r => !(r.id == a.id))) eid + 1 = countRows l eid := by
  rw [filter_ne_eq_erase ha hn]
  unfold countRows
  have hperm := List.Perm.filter (fun r => r.eventId == eid) (List.perm_cons_erase ha)
  have hlen := hperm.length_eq
  rw [List.filter_cons, hmatch] at hlen
  simpa using hlen.symm

theorem countRows_remove_nomatch {l : List EventRSVP} {a : EventRSVP} (ha : a ∈ l)
    (hn : (l.map (fun r => r.id)).Nodup) {eid : Nat} (hmatch : (a.eventId == eid) = false) :
    countRows (l.filter (fun r => !(r.id == a.id))) eid = countRows l eid := by
  rw [filter_ne_eq_erase ha hn]
  unfold countRows
  have hperm := List.Perm.filter (fun r => r.eventId == eid) (List.perm_cons_erase ha)
  have hlen := hperm.length_eq
  rw [List.filter_cons, hmatch] at hlen
  simpa using hlen.symm

theorem counter_after_bump (events : List ArtistEvent) (rsvps rsvps2 : List EventRSVP)
    (eid eventId : Nat)
    (hc : ∀ e ∈ events, e.id = eventId → e.rsvpCount = (countRows rsvps eventId : Int))
    (hsame : eid ≠ eventId → countRows rsvps2 eventId = countRows rsvps eventId)
    (hbump : eid = eventId → countRows rsvps2 eventId = countRows rsvps eventId + 1) :
    ∀ e ∈ events.map (fun e2 =>
        if e2.id == eid then { e2 with rsvpCount := e2.rsvpCount + 1 } else e2),
      e.id = eventId → e.rsvpCount = (countRows rsvps2 eventId : Int) := by
  intro e he heid
  rw [List.mem_map] at he
  obtain ⟨e0, he0, rfl⟩ := he
  by_cases h0 : e0.id = eid
  · rw [if_pos (by simp [h0])] at heid ⊢
    have heid0 : e0.id = eventId := heid
    have heq : eid = eventId := h0 ▸ heid0
    rw [hbump heq]
    have := hc e0 he0 heid0
    push_cast
    omega
  · rw [if_neg (by simp [h0])] at heid ⊢
    have heid0 : e0.id = eventId := heid
    have hne : eid ≠ eventId := fun hcontr => h0 (heid0.trans hcontr.symm)
    rw [hsame hne]
    exact hc e0 he0 heid0

theorem counter_after_drop (events : List ArtistEvent) (rsvps rsvps2 : List EventRSVP)
    (eid eventId : Nat)
    (hc : ∀ e ∈ events, e.id = eventId → e.rsvpCount = (countRows rsvps eventId : Int))
    (hsame : eid ≠ eventId → countRows rsvps2 eventId = countRows rsvps eventId)
    (hdrop : eid = eventId → countRows rsvps2 eventId + 1 = countRows rsvps eventId) :
    ∀ e ∈ events.map (fun e2 =>
        if e2.id == eid then { e2 with rsvpCount := max (e2.rsvpCount - 1) 0 } else e2),
      e.id = eventId → e.rsvpCount = (countRows rsvps2 eventId : Int) := by
  intro e he heid
  rw [List.mem_map] at he
  obtain ⟨e0, he0, rfl⟩ := he
  by_cases h0 : e0.id = eid
  · rw [if_pos (by simp [h0])] at heid ⊢
    have heid0 : e0.id = eventId := heid
    have heq : eid = eventId := h0 ▸ heid0
    have hcnt := hdrop heq
    have hval := hc e0 he0 heid0
    have hmax : max (e0.rsvpCount - 1) 0 = e0.rsvpCount - 1 := by
      apply max_eq_left
      rw [hval]
      omega
    rw [hmax, hval]
    push_cast
    omega
  · rw [if_neg (by simp [h0])] at heid ⊢
    have heid0 : e0.id = eventId := heid
    have hne : eid ≠ eventId := fun hcontr => h0 (heid0.trans hcontr.symm)
    rw [hsame hne]
    exact hc e0 he0 heid0

theorem ledger_step_inv (db : DB) (op : LedgerOp) (eventId : Nat)
    (hn : rsvpIdsNodup db) (hf : rsvpIdsFresh db) (hc : counterMatchesFor db eventId) :
    rsvpIdsNodup (applyLedgerOp db op) ∧ rsvpIdsFresh (applyLedgerOp db op) ∧
      counterMatchesFor (applyLedgerOp db op) eventId := by
  cases op with
  | createRsvp now eid uid dto txOk =>
    simp only [applyLedgerOp]
    cases he : findEvent db eid with
    | none => simpa [rsvp, he] using ⟨hn, hf, hc⟩
    | some e =>
      by_cases hpast : e.startTime ≤ now
      · simpa [rsvp, he, hpast] using ⟨hn, hf, hc⟩
      · cases hr : findRsvp db eid uid with
        | some x => simpa [rsvp, he, hpast, hr] using ⟨hn, hf, hc⟩
        | none =>
          cases txOk with
          | false => simpa [rsvp, he, hpast, hr] using ⟨hn, hf, hc⟩
          | true =>
            have hred : (rsvp db now eid uid dto true).1 =
                { db with
                  rsvps := db.rsvps ++
                    [{ id := db.nextRsvpId, eventId := eid, userId := uid,
                       reminderEnabled := dto.reminderEnabled.getD true,
                       reminderSent := false }]
                  nextRsvpId := db.nextRsvpId + 1
                  events := db.events.map (fun e2 =>
                    if e2.id == eid then { e2 with rsvpCount := e2.rsvpCount + 1 }
                    else e2) } := by
              simp [rsvp, he, hpast, hr]
            rw [hred]
            refine ⟨?_, ?_, ?_⟩
            · unfold rsvpIdsNodup
              dsimp only
              rw [List.map_append, List.nodup_append]
              refine ⟨hn, by simp, ?_⟩
              intro b hb hb2
              rw [List.mem_map] at hb
              obtain ⟨r, hrmem, rfl⟩ := hb
              have hlt := hf r hrmem
              simp only [List.map_cons, List.map_nil, List.mem_singleton] at hb2
              omega
            · unfold rsvpIdsFresh
              dsimp only
              intro r hrmem
              rw [List.mem_append] at hrmem
              rcases hrmem with h | h
              · have := hf r h
                omega
              · rw [List.mem_singleton] at h
                subst h
                dsimp only
                omega
            · unfold counterMatchesFor
              dsimp only
              apply counter_after_bump db.events db.rsvps _ eid eventId hc
              · intro hne
                rw [countRows_append]
                dsimp only
                simp [hne]
              · intro heq
                rw [countRows_append]
                dsimp only
                simp [heq]
  | removeRsvp eid uid txOk =>
    simp only [applyLedgerOp]
    cases hr : findRsvp db eid uid with
    | none => simpa [unRsvp, hr] using ⟨hn, hf, hc⟩
    | some row =>
      cases txOk with
      | false => simpa [unRsvp, hr] using ⟨hn, hf, hc⟩
      | true =>
        have hrow_mem : row ∈ db.rsvps := List.mem_of_find?_eq_some hr
        have hrow_p := List.find?_some hr
        rw [Bool.and_eq_true] at hrow_p
        have hrow_eid : row.eventId = eid := by simpa using hrow_p.1
        have hred : (unRsvp db eid uid true).1 =
            { db with
              rsvps := db.rsvps.filter (fun r => !(r.id == row.id))
              events := db.events.map (fun e2 =>
                if e2.id == eid then { e2 with rsvpCount := max (e2.rsvpCount - 1) 0 }
                else e2) } := by
          simp [unRsvp, hr]
        rw [hred]
        refine ⟨?_, ?_, ?_⟩
        · unfold rsvpIdsNodup
          dsimp only
          exact List.Nodup.sublist (List.Sublist.map _ (List.filter_sublist _)) hn
        · unfold rsvpIdsFresh
          dsimp only
          intro r hrmem
          rw [List.mem_filter] at hrmem
          exact hf r hrmem.1
        · unfold counterMatchesFor
          dsimp only
          apply counter_after_drop db.events db.rsvps _ eid eventId hc
          · intro hne
            apply countRows_remove_nomatch hrow_mem hn
            rw [hrow_eid]
            simpa using hne
          · intro heq
            apply countRows_remove_match hrow_mem hn
            rw [hrow_eid]
            simpa using heq

theorem ledger_ops_inv :
    ∀ (ops : List LedgerOp) (db : DB) (eventId : Nat),
      rsvpIdsNodup db → rsvpIdsFresh db → counterMatchesFor db eventId →
      rsvpIdsNodup (applyLedgerOps db ops) ∧ rsvpIdsFresh (applyLedgerOps db ops) ∧
        counterMatchesFor (applyLedgerOps db ops) eventId := by
  intro ops
  induction ops with
  | nil => exact fun db eventId hn hf hc => ⟨hn, hf, hc⟩
  | cons op rest ih =>
    intro db eventId hn hf hc
    have h := ledger_step_inv db op eventId hn hf hc
    exact ih (applyLedgerOp db op) eventId h.1 h.2.1 h.2.2

/-- C1: from any initial state with unique row ids and a fresh id
generator in which the event's rsvpCount equals the number of RSVP rows
referencing it, after any sequence of Create RSVP and Remove RSVP calls
the counter again equals the number of rows referencing that event, and
it is never negative. -/
theorem C1_counter_invariant :
    ∀ (ops : List LedgerOp) (db : DB) (eventId : Nat),
      rsvpIdsNodup db → rsvpIdsFresh db → counterMatchesFor db eventId →
      counterMatchesFor (applyLedgerOps db ops) eventId ∧
        ∀ e ∈ (applyLedgerOps db ops).events, e.id = eventId → 0 ≤ e.rsvpCount := by
  intro ops db eventId hn hf hc
  have h := ledger_ops_inv ops db eventId hn hf hc
  refine ⟨h.2.2, ?_⟩
  intro e he heid
  rw [h.2.2 e he heid]
  exact Int.natCast_nonneg _

/-- Witness for C1: two users RSVP to evA and the first cancels; the
counter of event 1 ends in step with the remaining single row and
non-negative. -/
theorem C1_counter_invariant_witness :
    counterMatchesFor
        (applyLedgerOps dbA
          [.createRsvp 0 1 "u1" ⟨none⟩ true, .createRsvp 0 1 "u2" ⟨none⟩ true,
            .removeRsvp 1 "u1" true]) 1 ∧
      ∀ e ∈ (applyLedgerOps dbA
          [.createRsvp 0 1 "u1" ⟨none⟩ true, .createRsvp 0 1 "u2" ⟨none⟩ true,
            .removeRsvp 1 "u1" true]).events, e.id = 1 → 0 ≤ e.rsvpCount :=
  C1_counter_invariant
    [.createRsvp 0 1 "u1" ⟨none⟩ true, .createRsvp 0 1 "u2" ⟨none⟩ true,
      .removeRsvp 1 "u1" true] dbA 1 (by decide) (by decide) (by decide)

/-! Helper lemmas about the reminder sweep. -/

theorem flipIf_id (b : Bool) (r : EventRSVP) : (flipIf b r).id = r.id := by
  cases b <;> simp [flipIf, flip]

theorem flipIf_eventId (b : Bool) (r : EventRSVP) : (flipIf b r).eventId = r.eventId := by
  cases b <;> simp [flipIf, flip]

theorem flipIf_reminderEnabled (b : Bool) (r : EventRSVP) :
    (flipIf b r).reminderEnabled = r.reminderEnabled := by
  cases b <;> simp [flipIf, flip]

theorem any_congr_mem {α : Type} {l : List α} {p q : α → Bool}
    (h : ∀ a ∈ l, p a = q a) : l.any p = l.any q := by
  induction l with
  | nil => rfl
  | cons x xs ih =>
    rw [List.any_cons, List.any_cons, h x (by simp)]
    rw [ih (fun a ha => h a (by simp [ha]))]

theorem filterMap_congr_mem {α β : Type} {l : List α} {f g : α → Option β}
    (h : ∀ a ∈ l, f a = g a) : l.filterMap f = l.filterMap g := by
  induction l with
  | nil => rfl
  | cons x xs ih =>
    rw [List.filterMap_cons, List.filterMap_cons, h x (by simp)]
    rw [ih (fun a ha => h a (by simp [ha]))]

theorem map_id_flipIf (l : List EventRSVP) (f : EventRSVP → Bool) :
    ((l.map (fun r => flipIf (f r) r)).map (fun r => r.id)) = l.map (fun r => r.id) := by
  rw [List.map_map]
  apply List.map_congr_left
  intro a _
  simp [flipIf_id]

theorem contains_eligible_ids {l : List EventRSVP}
    (hn : (l.map (fun r => r.id)).Nodup) (p : EventRSVP → Bool) {r : EventRSVP}
    (hr : r ∈ l) :
    ((l.filter p).map (fun x => x.id)).contains r.id = p r := by
  cases hp : p r with
  | true =>
    have hmem : r.id ∈ (l.filter p).map (fun x => x.id) :=
      List.mem_map_of_mem _ (List.mem_filter.2 ⟨hr, hp⟩)
    simpa [List.contains] using hmem
  | false =>
    have hnmem : r.id ∉ (l.filter p).map (fun x => x.id) := by
      intro hmem
      rw [List.mem_map] at hmem
      obtain ⟨r2, hr2, hid⟩ := hmem
      rw [List.mem_filter] at hr2
      have : r2 = r := List.inj_on_of_nodup_map hn hr2.1 hr hid
      rw [this] at hr2
      rw [hr2.2] at hp
      cases hp
    simpa [List.contains] using hnmem

theorem filter_map_flipIf (l : List EventRSVP) (f p : EventRSVP → Bool)
    (hp : ∀ r, f r = true → p r = false ∧ p (flip r) = false) :
    (l.map (fun r => flipIf (f r) r)).filter p = l.filter p := by
  induction l with
  | nil => rfl
  | cons x xs ih =>
    rw [List.map_cons, List.filter_cons, List.filter_cons]
    cases hf : f x with
    | false =>
      have hx : flipIf false x = x := rfl
      rw [hx, ih]
    | true =>
      have hx : flipIf true x = flip x := rfl
      rw [hx, (hp x hf).1, (hp x hf).2, ih]
      simp

theorem filter_map_comm (l : List EventRSVP) (g : EventRSVP → EventRSVP)
    (p : EventRSVP → Bool) (h : ∀ r, p (g r) = p r) :
    (l.map g).filter p = (l.filter p).map g := by
  rw [List.filter_map]
  congr 1
  apply List.filter_congr
  intro x _
  exact h x

theorem eligible_flip_false (eid : Nat) (r : EventRSVP) :
    eligibleFor eid (flip r) = false := by
  simp [eligibleFor, flip]

theorem filter_eligible_after_flip (l : List EventRSVP) (eid eid2 : Nat)
    (hne : eid ≠ eid2) :
    (l.map (fun r => flipIf (eligibleFor eid2 r) r)).filter (eligibleFor eid) =
      l.filter (eligibleFor eid) := by
  apply filter_map_flipIf
  intro r hf
  have heid2 : r.eventId = eid2 := by
    have := hf
    unfold eligibleFor at this
    rw [Bool.and_eq_true, Bool.and_eq_true] at this
    simpa using this.1.1
  constructor
  · unfold eligibleFor
    rw [heid2]
    simp [Ne.symm hne]
  · exact eligible_flip_false eid r

theorem markReminderSent_rsvps (db : DB) (ids : List Nat) (h : ids.isEmpty = false) :
    (markReminderSent db ids).rsvps =
      db.rsvps.map (fun r => if ids.contains r.id then flip r else r) := by
  unfold markReminderSent flip
  rw [h]
  rfl

theorem processEvent_fst_rsvps (orc : SweepOracle) (ev : ArtistEvent) (db : DB)
    (hn : rsvpIdsNodup db) :
    (processEvent orc ev db).1.rsvps =
      if eventProcessOutcome orc db ev = true
      then db.rsvps.map (fun r => flipIf (eligibleFor ev.id r) r)
      else db.rsvps := by
  unfold processEvent eventProcessOutcome
  cases hfetch : orc.fetchFails ev.id with
  | true => simp [hfetch]
  | false =>
    cases hemp : (getRsvpsForReminder db ev.id).isEmpty with
    | true => simp [hfetch, hemp]
    | false =>
      cases hdis : orc.dispatchFails ev.id with
      | true => simp [hfetch, hemp, hdis]
      | false =>
        cases hmark : orc.markFails ev.id with
        | true => simp [hfetch, hemp, hdis, hmark]
        | false =>
          have hids : ((getRsvpsForReminder db ev.id).map (fun r => r.id)).isEmpty = false := by
            cases hl : getRsvpsForReminder db ev.id with
            | nil => rw [hl] at hemp; cases hemp
            | cons a as => rfl
          simp only [hfetch, hemp, hdis, hmark, Bool.not_false, Bool.true_and,
            Bool.and_self, if_true, Bool.false_eq_true, if_false]
          rw [markReminderSent_rsvps db _ hids]
          apply List.map_congr_left
          intro r hr
          simp only [getRsvpsForReminder]
          simp only [contains_eligible_ids hn (eligibleFor ev.id) hr]
          cases he : eligibleFor ev.id r <;> simp [he, flipIf, flip]

theorem processEvent_snd (orc : SweepOracle) (ev : ArtistEvent) (db : DB) :
    (processEvent orc ev db).2 =
      if dispatchPlanned orc db ev = true
      then [⟨ev.id, (getRsvpsForReminder db ev.id).map (fun r => r.userId)⟩]
      else [] := by
  unfold processEvent dispatchPlanned
  cases hfetch : orc.fetchFails ev.id with
  | true => simp [hfetch]
  | false =>
    cases hemp : (getRsvpsForReminder db ev.id).isEmpty with
    | true => simp [hfetch, hemp]
    | false =>
      cases hdis : orc.dispatchFails ev.id with
      | true => simp [hfetch, hemp, hdis]
      | false =>
        cases hmark : orc.markFails ev.id with
        | true => simp [hfetch, hemp, hdis, hmark]
        | false => simp [hfetch, hemp, hdis, hmark, markReminderSent]

theorem getRsvps_stable (orc : SweepOracle) (ev ev2 : ArtistEvent) (db : DB)
    (hn : rsvpIdsNodup db) (hne : ev2.id ≠ ev.id) :
    getRsvpsForReminder (processEvent orc ev db).1 ev2.id =
      getRsvpsForReminder db ev2.id := by
  unfold getRsvpsForReminder
  rw [processEvent_fst_rsvps orc ev db hn]
  cases hout : eventProcessOutcome orc db ev with
  | false => rw [if_neg (by simp [hout])]
  | true =>
    rw [if_pos rfl]
    exact filter_eligible_after_flip db.rsvps ev2.id ev.id hne

theorem outcome_stable (orc : SweepOracle) (ev ev2 : ArtistEvent) (db : DB)
    (hn : rsvpIdsNodup db) (hne : ev2.id ≠ ev.id) :
    eventProcessOutcome orc (processEvent orc ev db).1 ev2 =
        eventProcessOutcome orc db ev2 ∧
      dispatchPlanned orc (processEvent orc ev db).1 ev2 = dispatchPlanned orc db ev2 := by
  unfold eventProcessOutcome dispatchPlanned
  rw [getRsvps_stable orc ev ev2 db hn hne]
  exact ⟨rfl, rfl⟩

theorem processEvent_nodup (orc : SweepOracle) (ev : ArtistEvent) (db : DB)
    (hn : rsvpIdsNodup db) : rsvpIdsNodup (processEvent orc ev db).1 := by
  unfold rsvpIdsNodup
  rw [processEvent_fst_rsvps orc ev db hn]
  cases hout : eventProcessOutcome orc db ev with
  | false => simpa using hn
  | true =>
    rw [if_pos rfl, map_id_flipIf]
    exact hn

theorem sweepGo_spec (orc : SweepOracle) :
    ∀ (candidates : List ArtistEvent) (db : DB),
      rsvpIdsNodup db → (candidates.map (fun e => e.id)).Nodup →
      (sweepGo orc candidates db).1.rsvps =
          db.rsvps.map (fun r => flipIf (candidates.any
            (fun ev => eligibleFor ev.id r && eventProcessOutcome orc db ev)) r) ∧
        (sweepGo orc candidates db).2 =
          candidates.filterMap (fun ev =>
            if dispatchPlanned orc db ev = true
            then some ⟨ev.id, (getRsvpsForReminder db ev.id).map (fun r => r.userId)⟩
            else none) := by
  intro candidates
  induction candidates with
  | nil =>
    intro db hn hcn
    constructor
    · simp [sweepGo, flipIf]
    · rfl
  | cons ev rest ih =>
    intro db hn hcn
    rw [List.map_cons, List.nodup_cons] at hcn
    obtain ⟨hev_nin, hrest_nodup⟩ := hcn
    have hne : ∀ ev2 ∈ rest, ev2.id ≠ ev.id := by
      intro ev2 h2 hcontr
      exact hev_nin (hcontr ▸ List.mem_map_of_mem (fun e => e.id) h2)
    have hn1 : rsvpIdsNodup (processEvent orc ev db).1 := processEvent_nodup orc ev db hn
    have hih := ih (processEvent orc ev db).1 hn1 hrest_nodup
    constructor
    · simp only [sweepGo]
      rw [hih.1, processEvent_fst_rsvps orc ev db hn]
      cases hout : eventProcessOutcome orc db ev with
      | false =>
        rw [if_neg (by simp [hout])]
        apply List.map_congr_left
        intro r _
        have hany : (rest.any (fun ev2 => eligibleFor ev2.id r &&
            eventProcessOutcome orc (processEvent orc ev db).1 ev2)) =
            (rest.any (fun ev2 => eligibleFor ev2.id r && eventProcessOutcome orc db ev2)) := by
          apply any_congr_mem
          intro ev2 h2
          rw [(outcome_stable orc ev ev2 db hn (hne ev2 h2)).1]
        rw [hany, List.any_cons, hout]
        simp
      | true =>
        rw [if_pos rfl, List.map_map]
        apply List.map_congr_left
        intro r hr
        simp only [Function.comp]
        rw [List.any_cons, hout]
        cases heli : eligibleFor ev.id r with
        | true =>
          have hflip : flipIf true r = flip r := rfl
          rw [hflip]
          have hprest : (rest.any (fun ev2 => eligibleFor ev2.id (flip r) &&
              eventProcessOutcome orc (processEvent orc ev db).1 ev2)) = false := by
            rw [List.any_eq_false]
            intro ev2 _
            rw [eligible_flip_false]
            simp
          rw [hprest]
          simp [flipIf]
        | false =>
          have hflip : flipIf false r = r := rfl
          rw [hflip]
          have hany : (rest.any (fun ev2 => eligibleFor ev2.id r &&
              eventProcessOutcome orc (processEvent orc ev db).1 ev2)) =
              (rest.any (fun ev2 => eligibleFor ev2.id r &&
                eventProcessOutcome orc db ev2)) := by
            apply any_congr_mem
            intro ev2 h2
            rw [(outcome_stable orc ev ev2 db hn (hne ev2 h2)).1]
          rw [hany]
          simp
    · simp only [sweepGo]
      rw [hih.2, processEvent_snd]
      have hrest : rest.filterMap (fun ev2 =>
          if dispatchPlanned orc (processEvent orc ev db).1 ev2 = true
          then some (Dispatch.mk ev2.id ((getRsvpsForReminder (processEvent orc ev db).1 ev2.id).map
            (fun r => r.userId)))
          else none) =
        rest.filterMap (fun ev2 =>
          if dispatchPlanned orc db ev2 = true
          then some (Dispatch.mk ev2.id ((getRsvpsForReminder db ev2.id).map (fun r => r.userId)))
          else none) := by
        apply filterMap_congr_mem
        intro ev2 h2
        rw [(outcome_stable orc ev ev2 db hn (hne ev2 h2)).2,
          getRsvps_stable orc ev ev2 db hn (hne ev2 h2)]
      rw [hrest]
      cases hplan : dispatchPlanned orc db ev with
      | true =>
        rw [if_pos rfl, List.filterMap_cons_some (by rw [if_pos hplan])]
        rfl
      | false =>
        rw [if_neg (by simp),
          List.filterMap_cons_none (by rw [if_neg (by simp [hplan])])]
        simp

theorem candidates_ids_nodup (db : DB) (now : Int) (hen : eventIdsNodup db) :
    ((getEventsStartingSoon db now).map (fun e => e.id)).Nodup := by
  unfold getEventsStartingSoon
  exact List.Nodup.sublist (List.Sublist.map _ (List.filter_sublist _)) hen

theorem dispatch_filter_absent (c : ArtistEvent → Bool) (u : ArtistEvent → List String) :
    ∀ (l : List ArtistEvent) (eid : Nat), (∀ ev ∈ l, ev.id ≠ eid) →
      ((l.filterMap (fun ev =>
          if c ev = true then some (Dispatch.mk ev.id (u ev)) else none)).filter
        (fun d => d.eventId == eid)) = [] := by
  intro l
  induction l with
  | nil => intro eid _; rfl
  | cons x xs ih =>
    intro eid h
    cases hc : c x with
    | true =>
      rw [List.filterMap_cons_some (by rw [if_pos hc]), List.filter_cons]
      have hhead : ((Dispatch.mk x.id (u x)).eventId == eid) = false := by
        simpa using h x (by simp)
      simp only [hhead, Bool.false_eq_true, if_false]
      exact ih eid (fun ev hev => h ev (by simp [hev]))
    | false =>
      rw [List.filterMap_cons_none (by rw [if_neg (by simp [hc])])]
      exact ih eid (fun ev hev => h ev (by simp [hev]))

theorem dispatch_filter_unique (c : ArtistEvent → Bool) (u : ArtistEvent → List String) :
    ∀ (l : List ArtistEvent) (e : ArtistEvent), e ∈ l →
      ((l.map (fun x => x.id)).Nodup) →
      ((l.filterMap (fun ev =>
          if c ev = true then some (Dispatch.mk ev.id (u ev)) else none)).filter
        (fun d => d.eventId == e.id)) =
        if c e = true then [Dispatch.mk e.id (u e)] else [] := by
  intro l
  induction l with
  | nil => intro e he; cases he
  | cons x xs ih =>
    intro e he hn
    rw [List.map_cons, List.nodup_cons] at hn
    rcases List.mem_cons.1 he with hxe | hxs
    · subst hxe
      have habs : ∀ ev ∈ xs, ev.id ≠ e.id := by
        intro ev hev hcontr
        exact hn.1 (hcontr ▸ List.mem_map_of_mem (fun t => t.id) hev)
      cases hc : c e with
      | true =>
        rw [List.filterMap_cons_some (by rw [if_pos hc]), List.filter_cons]
        rw [dispatch_filter_absent c u xs e.id habs]
        simp
      | false =>
        rw [List.filterMap_cons_none (by rw [if_neg (by simp [hc])])]
        rw [dispatch_filter_absent c u xs e.id habs]
        simp
    · have hxid : x.id ≠ e.id := by
        intro hcontr
        exact hn.1 (hcontr ▸ List.mem_map_of_mem (fun t => t.id) hxs)
      cases hc : c x with
      | true =>
        rw [List.filterMap_cons_some (by rw [if_pos hc]), List.filter_cons]
        have hhead : ((Dispatch.mk x.id (u x)).eventId == e.id) = false := by
          simpa using hxid
        simp only [hhead, Bool.false_eq_true, if_false]
        exact ih e hxs hn.2
      | false =>
        rw [List.filterMap_cons_none (by rw [if_neg (by simp [hc])])]
        exact ih e hxs hn.2

/-- C6: for a candidate event whose own fetch, dispatch and mark steps
succeed, one sweep invocation dispatches at most once for that event,
with exactly the user identifiers of its rows having reminders enabled
and not yet sent (no dispatch at all when that set is empty); exactly
those fetched rows get reminderSent set to true, the event's other rows
are left unchanged, and rows with reminders disabled are untouched
everywhere. -/
theorem C6_sweep_dispatch_exact :
    ∀ (orc : SweepOracle) (db : DB) (now : Int) (e : ArtistEvent),
      rsvpIdsNodup db → eventIdsNodup db →
      e ∈ getEventsStartingSoon db now →
      orc.fetchFails e.id = false → orc.dispatchFails e.id = false →
      orc.markFails e.id = false →
      ((sendEventReminders orc db now).2.filter (fun d => d.eventId == e.id) =
        if (getRsvpsForReminder db e.id).isEmpty then []
        else [⟨e.id, (getRsvpsForReminder db e.id).map (fun r => r.userId)⟩]) ∧
      ((sendEventReminders orc db now).1.rsvps.filter (fun r => r.eventId == e.id) =
        (db.rsvps.filter (fun r => r.eventId == e.id)).map
          (fun r => flipIf (eligibleFor e.id r) r)) ∧
      ((sendEventReminders orc db now).1.rsvps.filter (fun r => !r.reminderEnabled) =
        db.rsvps.filter (fun r => !r.reminderEnabled)) := by
  intro orc db now e hn hen he hf hd hm
  have hcn := candidates_ids_nodup db now hen
  have hspec := sweepGo_spec orc (getEventsStartingSoon db now) db hn hcn
  unfold sendEventReminders
  refine ⟨?_, ?_, ?_⟩
  · rw [hspec.2]
    rw [dispatch_filter_unique (fun ev => dispatchPlanned orc db ev)
      (fun ev => (getRsvpsForReminder db ev.id).map (fun r => r.userId))
      (getEventsStartingSoon db now) e he hcn]
    have hplan : dispatchPlanned orc db e = !(getRsvpsForReminder db e.id).isEmpty := by
      unfold dispatchPlanned
      rw [hf]
      simp
    rw [hplan]
    cases hemp : (getRsvpsForReminder db e.id).isEmpty with
    | true => simp
    | false => simp
  · rw [hspec.1]
    rw [filter_map_comm _ _ _ (fun r => by rw [flipIf_eventId])]
    apply List.map_congr_left
    intro r hr
    rw [List.mem_filter] at hr
    congr 1
    cases heli : eligibleFor e.id r with
    | true =>
      have hrin : r ∈ getRsvpsForReminder db e.id := List.mem_filter.2 ⟨hr.1, heli⟩
      have hemp : (getRsvpsForReminder db e.id).isEmpty = false := by
        cases hl : getRsvpsForReminder db e.id with
        | nil => rw [hl] at hrin; cases hrin
        | cons a as => rfl
      have hout : eventProcessOutcome orc db e = true := by
        unfold eventProcessOutcome
        rw [hf, hd, hm, hemp]
        rfl
      exact List.any_eq_true.2 ⟨e, he, by rw [heli, hout]; rfl⟩
    | false =>
      refine List.any_eq_false.2 ?_
      intro ev hev
      by_cases hevid : ev.id = e.id
      · have hevE : ev = e := List.inj_on_of_nodup_map hcn hev he hevid
        rw [hevE]
        simp [heli]
      · have helig : eligibleFor ev.id r = false := by
          unfold eligibleFor
          have hre : (r.eventId == ev.id) = false := by
            have h2 : r.eventId = e.id := by simpa using hr.2
            rw [h2, beq_eq_false_iff_ne]
            exact fun hc => hevid hc.symm
          rw [hre]
          simp
        simp [helig]
  · rw [hspec.1]
    apply filter_map_flipIf
    intro r hfr
    rw [List.any_eq_true] at hfr
    obtain ⟨ev, _, hterm⟩ := hfr
    rw [Bool.and_eq_true] at hterm
    have hen2 : r.reminderEnabled = true := by
      have h3 := hterm.1
      unfold eligibleFor at h3
      rw [Bool.and_eq_true, Bool.and_eq_true] at h3
      exact h3.1.2
    constructor
    · simp [hen2]
    · simp [flip, hen2]

/-- Witness for C6: the concrete sweep at instant zero on dbS (one
candidate event, users u1 and u2 eligible, u3 ineligible) with no
injected failures. -/
theorem C6_sweep_dispatch_exact_witness :
    ((sendEventReminders orcNone dbS 0).2.filter (fun d => d.eventId == evS.id) =
      if (getRsvpsForReminder dbS evS.id).isEmpty then []
      else [⟨evS.id, (getRsvpsForReminder dbS evS.id).map (fun r => r.userId)⟩]) ∧
    ((sendEventReminders orcNone dbS 0).1.rsvps.filter (fun r => r.eventId == evS.id) =
      (dbS.rsvps.filter (fun r => r.eventId == evS.id)).map
        (fun r => flipIf (eligibleFor evS.id r) r)) ∧
    ((sendEventReminders orcNone dbS 0).1.rsvps.filter (fun r => !r.reminderEnabled) =
      dbS.rsvps.filter (fun r => !r.reminderEnabled)) :=
  C6_sweep_dispatch_exact orcNone dbS 0 evS (by decide) (by decide) (by decide)
    (by decide) (by decide) (by decide)

/-- C7: within one sweep invocation, whatever failures other candidate
events suffer, a candidate event whose own fetch, dispatch and mark
steps succeed still has its eligible RSVPs dispatched (the dispatch
record is in the log) and marked sent in that same invocation. -/
theorem C7_sweep_failure_isolation :
    ∀ (orc : SweepOracle) (db : DB) (now : Int) (e : ArtistEvent),
      rsvpIdsNodup db → eventIdsNodup db →
      e ∈ getEventsStartingSoon db now →
      orc.fetchFails e.id = false → orc.dispatchFails e.id = false →
      orc.markFails e.id = false →
      ((getRsvpsForReminder db e.id).isEmpty = false →
        Dispatch.mk e.id ((getRsvpsForReminder db e.id).map (fun r => r.userId)) ∈
          (sendEventReminders orc db now).2) ∧
      (∀ r ∈ getRsvpsForReminder db e.id,
        flip r ∈ (sendEventReminders orc db now).1.rsvps) := by
  intro orc db now e hn hen he hf hd hm
  have hcn := candidates_ids_nodup db now hen
  have hspec := sweepGo_spec orc (getEventsStartingSoon db now) db hn hcn
  unfold sendEventReminders
  constructor
  · intro hemp
    rw [hspec.2]
    have hplan : dispatchPlanned orc db e = true := by
      unfold dispatchPlanned
      rw [hf, hemp]
      rfl
    exact List.mem_filterMap.2 ⟨e, he, by rw [if_pos hplan]⟩
  · intro r hrin
    rw [hspec.1]
    have hrmem : r ∈ db.rsvps := (List.mem_filter.1 hrin).1
    have heli : eligibleFor e.id r = true := (List.mem_filter.1 hrin).2
    have hemp : (getRsvpsForReminder db e.id).isEmpty = false := by
      cases hl : getRsvpsForReminder db e.id with
      | nil => rw [hl] at hrin; cases hrin
      | cons a as => rfl
    have hout : eventProcessOutcome orc db e = true := by
      unfold eventProcessOutcome
      rw [hf, hd, hm, hemp]
      rfl
    have hany : (getEventsStartingSoon db now).any
        (fun ev => eligibleFor ev.id r && eventProcessOutcome orc db ev) = true :=
      List.any_eq_true.2 ⟨e, he, by rw [heli, hout]; rfl⟩
    have : flipIf ((getEventsStartingSoon db now).any
        (fun ev => eligibleFor ev.id r && eventProcessOutcome orc db ev)) r ∈
        db.rsvps.map (fun r2 => flipIf ((getEventsStartingSoon db now).any
          (fun ev => eligibleFor ev.id r2 && eventProcessOutcome orc db ev)) r2) :=
      List.mem_map_of_mem _ hrmem
    rw [hany] at this
    exact this

/-- Witness for C7: on dbT the fetch for event 2 (first in the
candidate list) throws, yet event 1's two eligible rows are still
dispatched and marked sent in the same invocation. -/
theorem C7_sweep_failure_isolation_witness :
    Dispatch.mk evS.id ((getRsvpsForReminder dbT evS.id).map (fun r => r.userId)) ∈
        (sendEventReminders orcFetchFail2 dbT 0).2 ∧
      flip rowA ∈ (sendEventReminders orcFetchFail2 dbT 0).1.rsvps :=
  ⟨(C7_sweep_failure_isolation orcFetchFail2 dbT 0 evS (by decide) (by decide) (by decide)
      (by decide) (by decide) (by decide)).1 (by decide),
   (C7_sweep_failure_isolation orcFetchFail2 dbT 0 evS (by decide) (by decide) (by decide)
      (by decide) (by decide) (by decide)).2 rowA (by decide)⟩

end TipTune
